import Mathlib

/-!
Shallow embedding of the `sol_cb` Anchor program
(`src/programs/sol-cb/src/lib.rs`) and verification of the stated
properties of its campaign / open-campaign lifecycle.

Modelling conventions:
* Machine integers are `Nat` (u32/u64, with explicit `2 ^ 32` / `2 ^ 64`
  bounds where the source uses `checked_add` / `checked_mul`) and `Int`
  (i64 timestamps, on which the source only compares and serialises).
* A Solana `Pubkey` is its 32-byte content, modelled as a byte list;
  `Pubkey::default()` is 32 zero bytes.
* SPL token accounts are records `(owner, mint, amount)`; the external
  `token::transfer` capability moves `amount` units and fails with
  `InsufficientFunds` when the source balance is too small.
* Each instruction is a pure function from its account contents and
  arguments (plus the clock where the handler reads it) to a result.
  Anchor evaluates the `#[account(...)]` data-level constraints before
  the handler body runs; those constraints are embedded as leading
  checks failing with `AccountConstraintViolation`.  PDA address
  derivation and account resolution are the host's concern and are out
  of scope; the `hash` primitive of `solana_program` is an external
  collaborator and enters as an explicit function parameter `H`.
* A Rust `unwrap` on a failed checked operation aborts the transaction:
  instructions containing one return `Option (Except ...)`, where
  `none` is the abort.
-/

namespace SolCb

/-- Decidable equality of transaction results. -/
instance instDecidableEqExcept {ε α : Type} [DecidableEq ε]
    [DecidableEq α] : DecidableEq (Except ε α) := fun x y =>
  match x, y with
  | .ok a, .ok b =>
      if h : a = b then isTrue (by rw [h]) else isFalse (by simp [h])
  | .error e, .error f =>
      if h : e = f then isTrue (by rw [h]) else isFalse (by simp [h])
  | .ok _, .error _ => isFalse (by simp)
  | .error _, .ok _ => isFalse (by simp)

/-- A public key, as its 32 raw bytes. -/
abbrev Pubkey := List Nat

/-- `Pubkey::default()`: the all-zero key. -/
def pubkeyDefault : Pubkey := List.replicate 32 0

def U32_MOD : Nat := 2 ^ 32
def U64_MOD : Nat := 2 ^ 64

/-- Rust `u32::checked_add`. -/
def checkedAddU32 (a b : Nat) : Option Nat :=
  if a + b < U32_MOD then some (a + b) else none

/-- Rust `u64::checked_mul`. -/
def checkedMulU64 (a b : Nat) : Option Nat :=
  if a * b < U64_MOD then some (a * b) else none

/-- Rust `u64::checked_div`. -/
def checkedDivU64 (a b : Nat) : Option Nat :=
  if b = 0 then none else some (a / b)

/-- `k` little-endian bytes of `n`. -/
def leBytes : Nat → Nat → List Nat
  | 0, _ => []
  | k + 1, n => n % 256 :: leBytes k (n / 256)

/-- `u32::to_le_bytes`. -/
def u32LeBytes (n : Nat) : List Nat := leBytes 4 n

/-- `i64::to_le_bytes` (two's complement). -/
def i64LeBytes (t : Int) : List Nat := leBytes 8 (t.emod (2 ^ 64)).toNat

/-- `CampaignStatus` from the source. -/
inductive CampaignStatus where
  | Open
  | Accepted
  | Fulfilled
  | Unfulfilled
  | Discarded
deriving DecidableEq

/-- `OpenCampaignStatus` from the source. -/
inductive OpenCampaignStatus where
  | Published
  | Fulfilled
  | Discarded
deriving DecidableEq

/-- `Campaign` account data. -/
structure Campaign where
  id : List Nat
  counter : Nat
  created_at : Int
  creator_address : Pubkey
  token_mint : Pubkey
  selected_kol : Pubkey
  offer_ends_in : Int
  promotion_ends_in : Int
  amount_offered : Nat
  campaign_status : CampaignStatus
deriving DecidableEq

/-- `OpenCampaign` account data. -/
structure OpenCampaign where
  id : List Nat
  counter : Nat
  created_at : Int
  creator_address : Pubkey
  token_mint : Pubkey
  promotion_ends_in : Int
  pool_amount : Nat
  campaign_status : OpenCampaignStatus
deriving DecidableEq

/-- `MarketplaceState` account data. -/
structure MarketplaceState where
  owner : Pubkey
  campaign_counter : Nat
  allowed_tokens : List Pubkey
  token_decimals : List Nat
deriving DecidableEq

/-- An SPL token account, at the interface the program uses. -/
structure TokenAccount where
  owner : Pubkey
  mint : Pubkey
  amount : Nat
deriving DecidableEq

/-- Transaction errors: the program's `CustomErrorCode` variants, plus
the generic Anchor error raised by an `#[account(constraint = ...)]`
that carries no custom code. -/
inductive TxError where
  | Unauthorized
  | InvalidCampaignStatus
  | InvalidKolAddress
  | CampaignExpired
  | InvalidTimeParameters
  | InvalidAmount
  | InsufficientFunds
  | InvalidParameters
  | TooManyTokens
  | InvalidOpenCampaignStatus
  | AccountConstraintViolation
deriving DecidableEq

-- ------------------ GLOBAL CONSTANTS ------------------

def DIVIDER : Nat := 10000
def KOL_SHARE_PERCENTAGE : Nat := 9000
def OWNER_SHARE_PERCENTAGE : Nat := 1000

/-- The external `token::transfer` capability: move `amount` units from
`source` to `dest`, failing when the balance is insufficient. -/
def transfer (source dest : TokenAccount) (amount : Nat) :
    Except TxError (TokenAccount × TokenAccount) :=
  if amount ≤ source.amount then
    .ok ({ source with amount := source.amount - amount },
         { dest with amount := dest.amount + amount })
  else
    .error .InsufficientFunds

/-- The `kol_amount` computation of `fulfil_project_campaign`:
`total.checked_mul(KOL_SHARE_PERCENTAGE)?.checked_div(DIVIDER)?`. -/
def kolAmountOf (total : Nat) : Option Nat :=
  (checkedMulU64 total KOL_SHARE_PERCENTAGE).bind fun x =>
    checkedDivU64 x DIVIDER

/-- The `owner_amount` computation of `fulfil_project_campaign`. -/
def ownerAmountOf (total : Nat) : Option Nat :=
  (checkedMulU64 total OWNER_SHARE_PERCENTAGE).bind fun x =>
    checkedDivU64 x DIVIDER

-- ------------------ create_new_campaign ------------------

/-- Accounts of `CreateNewCampaign` (data content; the `campaign` PDA is
being initialised and so carries no prior data). -/
structure CreateNewCampaignAccounts where
  marketplace_state : MarketplaceState
  creator : Pubkey
  token_mint : Pubkey
deriving DecidableEq

/-- `create_new_campaign`.  `H` is the `solana_program` `hash`
primitive (SHA-256), an external collaborator passed explicitly;
`current_time` is `Clock::get()?.unix_timestamp`. -/
def create_new_campaign (H : List Nat → List Nat)
    (a : CreateNewCampaignAccounts)
    (selected_kol : Pubkey) (offering_amount : Nat)
    (promotion_ends_in offer_ends_in : Int) (current_time : Int) :
    Option (Except TxError (Campaign × MarketplaceState)) :=
  -- #[account(constraint = marketplace_state.allowed_tokens.contains(token_mint))]
  if a.token_mint ∉ a.marketplace_state.allowed_tokens then
    some (.error .AccountConstraintViolation)
  else if offering_amount = 0 then
    some (.error .InvalidAmount)
  else if offer_ends_in ≤ current_time ∨ promotion_ends_in ≤ current_time then
    some (.error .InvalidTimeParameters)
  else
    let creator_key := a.creator
    let counter := a.marketplace_state.campaign_counter
    let data_to_hash :=
      i64LeBytes current_time ++ creator_key ++ u32LeBytes counter
    let id_data := (H data_to_hash).take 4
    match checkedAddU32 counter 1 with
    | none => none
    | some newCounter =>
        some (.ok
          ({ id := id_data
             counter := counter
             created_at := current_time
             creator_address := a.creator
             token_mint := a.token_mint
             selected_kol := selected_kol
             offer_ends_in := offer_ends_in
             promotion_ends_in := promotion_ends_in
             amount_offered := offering_amount
             campaign_status := .Open },
           { a.marketplace_state with campaign_counter := newCounter }))

-- ------------------ update_campaign ------------------

/-- Accounts of `UpdateCampaign`. -/
structure UpdateCampaignAccounts where
  marketplace_state : MarketplaceState
  creator : Pubkey
  campaign : Campaign
  token_mint : Pubkey
deriving DecidableEq

/-- `update_campaign`, with the `UpdateCampaign` account constraints
(`campaign.creator_address == creator.key() @ Unauthorized`;
`token_mint.key() == campaign.token_mint`) evaluated before the
handler body, in declaration order. -/
def update_campaign (a : UpdateCampaignAccounts)
    (selected_kol : Pubkey) (promotion_ends_in offer_ends_in : Int)
    (new_amount_offered : Nat) : Except TxError Campaign :=
  if a.campaign.creator_address ≠ a.creator then
    .error .Unauthorized
  else if a.token_mint ≠ a.campaign.token_mint then
    .error .AccountConstraintViolation
  else if selected_kol = pubkeyDefault then
    .error .InvalidKolAddress
  else if a.campaign.campaign_status ≠ .Open then
    .error .InvalidCampaignStatus
  else if a.campaign.creator_address ≠ a.creator then
    .error .Unauthorized
  else
    .ok { a.campaign with
          token_mint := a.token_mint
          selected_kol := selected_kol
          promotion_ends_in := promotion_ends_in
          offer_ends_in := offer_ends_in
          amount_offered := new_amount_offered }

-- ------------------ discard_project_campaign ------------------

/-- Accounts of `DiscardProjectCampaign`. -/
structure DiscardProjectCampaignAccounts where
  marketplace_state : MarketplaceState
  creator : Pubkey
  campaign : Campaign
  campaign_token_account : TokenAccount
  creator_token_account : TokenAccount
  token_mint : Pubkey
deriving DecidableEq

/-- Result state of a successful `discard_project_campaign`. -/
structure DiscardResult where
  campaign : Campaign
  campaign_token_account : TokenAccount
  creator_token_account : TokenAccount
deriving DecidableEq

/-- `discard_project_campaign`: no status precondition; when the custody
balance is positive the status is set to `Discarded` and the full
balance returned to the creator, otherwise nothing changes. -/
def discard_project_campaign (a : DiscardProjectCampaignAccounts) :
    Except TxError DiscardResult :=
  -- data-level account constraints of DiscardProjectCampaign
  if a.campaign_token_account.mint ∉ a.marketplace_state.allowed_tokens then
    .error .AccountConstraintViolation
  else if ¬ (a.creator_token_account.owner = a.campaign.creator_address ∧
      a.creator_token_account.mint ∈ a.marketplace_state.allowed_tokens) then
    .error .AccountConstraintViolation
  else if a.token_mint ≠ a.campaign.token_mint then
    .error .AccountConstraintViolation
  else
    let campaign_balance := a.campaign_token_account.amount
    if a.campaign.creator_address ≠ a.creator then
      .error .Unauthorized
    else if campaign_balance > 0 then
      let campaign1 := { a.campaign with campaign_status := .Discarded }
      match transfer a.campaign_token_account a.creator_token_account
          campaign_balance with
      | .error e => .error e
      | .ok (custody1, creatorAcc1) =>
          .ok { campaign := campaign1
                campaign_token_account := custody1
                creator_token_account := creatorAcc1 }
    else
      .ok { campaign := a.campaign
            campaign_token_account := a.campaign_token_account
            creator_token_account := a.creator_token_account }

-- ------------------ accept_project_campaign ------------------

/-- `accept_project_campaign` (the `AcceptProjectCampaign` accounts
carry no data-level constraints): expiry is checked first, then the
caller against `selected_kol`, then the status. -/
def accept_project_campaign (kol : Pubkey) (campaign : Campaign)
    (current_time : Int) : Except TxError Campaign :=
  if campaign.offer_ends_in < current_time then
    .error .CampaignExpired
  else if campaign.selected_kol ≠ kol then
    .error .Unauthorized
  else if campaign.campaign_status ≠ .Open then
    .error .InvalidCampaignStatus
  else
    .ok { campaign with campaign_status := .Accepted }

-- ------------------ fulfil_project_campaign ------------------

/-- Accounts of `FulfilProjectCampaign`.  `owner` is the transaction
signer; note that no constraint compares it with
`marketplace_state.owner`. -/
structure FulfilProjectCampaignAccounts where
  marketplace_state : MarketplaceState
  owner : Pubkey
  campaign : Campaign
  campaign_token_account : TokenAccount
  kol_token_account : TokenAccount
  owner_token_account : TokenAccount
  token_mint : Pubkey
deriving DecidableEq

/-- Result state of a successful `fulfil_project_campaign`. -/
structure FulfilResult where
  campaign : Campaign
  campaign_token_account : TokenAccount
  kol_token_account : TokenAccount
  owner_token_account : TokenAccount
deriving DecidableEq

/-- `fulfil_project_campaign`.  The share amounts are computed from
`campaign.amount_offered`; the signer `a.owner` is never inspected. -/
def fulfil_project_campaign (a : FulfilProjectCampaignAccounts) :
    Option (Except TxError FulfilResult) :=
  -- data-level account constraints of FulfilProjectCampaign
  if a.campaign_token_account.mint ∉ a.marketplace_state.allowed_tokens then
    some (.error .AccountConstraintViolation)
  else if ¬ (a.kol_token_account.owner = a.campaign.selected_kol ∧
      a.kol_token_account.mint ∈ a.marketplace_state.allowed_tokens) then
    some (.error .AccountConstraintViolation)
  else if ¬ (a.owner_token_account.owner = a.marketplace_state.owner ∧
      a.owner_token_account.mint ∈ a.marketplace_state.allowed_tokens) then
    some (.error .AccountConstraintViolation)
  else if a.token_mint ≠ a.campaign.token_mint then
    .some (.error .AccountConstraintViolation)
  else if a.campaign.campaign_status ≠ .Accepted then
    some (.error .InvalidCampaignStatus)
  else
    let total_amount := a.campaign.amount_offered
    match kolAmountOf total_amount, ownerAmountOf total_amount with
    | some kol_amount, some owner_amount =>
        let campaign1 := { a.campaign with campaign_status := .Fulfilled }
        match transfer a.campaign_token_account a.kol_token_account
            kol_amount with
        | .error e => some (.error e)
        | .ok (custody1, kolAcc1) =>
            match transfer custody1 a.owner_token_account owner_amount with
            | .error e => some (.error e)
            | .ok (custody2, ownerAcc1) =>
                some (.ok { campaign := campaign1
                            campaign_token_account := custody2
                            kol_token_account := kolAcc1
                            owner_token_account := ownerAcc1 })
    | _, _ => none

-- ------------------ create_open_campaign ------------------

/-- Accounts of `CreateOpenCampaign`. -/
structure CreateOpenCampaignAccounts where
  marketplace_state : MarketplaceState
  creator : Pubkey
  token_mint : Pubkey
deriving DecidableEq

/-- `create_open_campaign`. -/
def create_open_campaign (H : List Nat → List Nat)
    (a : CreateOpenCampaignAccounts)
    (promotion_ends_in : Int) (pool_amount : Nat) (current_time : Int) :
    Option (Except TxError (OpenCampaign × MarketplaceState)) :=
  if a.token_mint ∉ a.marketplace_state.allowed_tokens then
    some (.error .AccountConstraintViolation)
  else if pool_amount = 0 then
    some (.error .InvalidAmount)
  else if promotion_ends_in ≤ current_time then
    some (.error .InvalidTimeParameters)
  else
    let creator_key := a.creator
    let counter := a.marketplace_state.campaign_counter
    let data_to_hash :=
      i64LeBytes current_time ++ creator_key ++ u32LeBytes counter
    let id_data := (H data_to_hash).take 4
    match checkedAddU32 counter 1 with
    | none => none
    | some newCounter =>
        some (.ok
          ({ id := id_data
             counter := counter
             created_at := current_time
             creator_address := a.creator
             token_mint := a.token_mint
             promotion_ends_in := promotion_ends_in
             pool_amount := pool_amount
             campaign_status := .Published },
           { a.marketplace_state with campaign_counter := newCounter }))

-- ------------------ complete_open_campaign ------------------

/-- Accounts of `CompleteOpenCampaign`.  `owner` is the signer. -/
structure CompleteOpenCampaignAccounts where
  marketplace_state : MarketplaceState
  owner : Pubkey
  open_campaign : OpenCampaign
  campaign_token_account : TokenAccount
  owner_token_account : TokenAccount
deriving DecidableEq

/-- Result state of a successful `complete_open_campaign`. -/
structure CompleteResult where
  open_campaign : OpenCampaign
  campaign_token_account : TokenAccount
  owner_token_account : TokenAccount
deriving DecidableEq

/-- `complete_open_campaign`: the caller must be the registry owner,
the campaign must be `Published`, and `pool_amount` is drained from
custody to the owner's token account in both the fulfilled and the
discarded branch. -/
def complete_open_campaign (a : CompleteOpenCampaignAccounts)
    (is_fulfilled : Bool) : Except TxError CompleteResult :=
  -- data-level account constraints of CompleteOpenCampaign
  if a.campaign_token_account.mint ∉ a.marketplace_state.allowed_tokens then
    .error .AccountConstraintViolation
  else if ¬ (a.owner_token_account.owner = a.marketplace_state.owner ∧
      a.owner_token_account.mint ∈ a.marketplace_state.allowed_tokens) then
    .error .AccountConstraintViolation
  else if a.marketplace_state.owner ≠ a.owner then
    .error .Unauthorized
  else if a.open_campaign.campaign_status ≠ .Published then
    .error .InvalidOpenCampaignStatus
  else
    let pool_amount := a.open_campaign.pool_amount
    let oc1 := { a.open_campaign with
                 campaign_status :=
                   if is_fulfilled then .Fulfilled else .Discarded }
    match transfer a.campaign_token_account a.owner_token_account
        pool_amount with
    | .error e => .error e
    | .ok (custody1, ownerAcc1) =>
        .ok { open_campaign := oc1
              campaign_token_account := custody1
              owner_token_account := ownerAcc1 }

/-- Spec §4.1 `derive_campaign_id(timestamp, creator_identity, counter)`:
concatenate little-endian timestamp bytes, creator identity bytes,
little-endian counter bytes; hash; take the first 4 bytes.  Stated from
the spec's words as the refinement target for the inlined id
computations of the two creation instructions. -/
def derive_campaign_id (H : List Nat → List Nat) (timestamp : Int)
    (creator : Pubkey) (counter : Nat) : List Nat :=
  (H (i64LeBytes timestamp ++ creator ++ u32LeBytes counter)).take 4

-- ------------------ concrete instances for witnesses ------------------

/-- A marketplace registry with owner `[2]` and one allowed mint `[7]`. -/
def exMarketplace : MarketplaceState :=
  { owner := [2], campaign_counter := 5, allowed_tokens := [[7]],
    token_decimals := [6] }

/-- An `Open` campaign created by `[1]` with promoter `[3]` and mint `[7]`. -/
def exCampaign : Campaign :=
  { id := [0, 0, 0, 0], counter := 5, created_at := 10,
    creator_address := [1], token_mint := [7], selected_kol := [3],
    offer_ends_in := 100, promotion_ends_in := 200, amount_offered := 1000,
    campaign_status := .Open }

/-- `exCampaign` after the promoter accepted. -/
def exCampaignAccepted : Campaign :=
  { exCampaign with campaign_status := .Accepted }

/-- `exCampaign` in the terminal `Fulfilled` state. -/
def exCampaignFulfilled : Campaign :=
  { exCampaign with campaign_status := .Fulfilled }

/-- Update accounts with the true creator `[1]` calling. -/
def exUpdateAccounts : UpdateCampaignAccounts :=
  { marketplace_state := exMarketplace, creator := [1],
    campaign := exCampaign, token_mint := [7] }

/-- Update accounts with a stranger `[9]` calling. -/
def exUpdateAccountsWrongCaller : UpdateCampaignAccounts :=
  { marketplace_state := exMarketplace, creator := [9],
    campaign := exCampaign, token_mint := [7] }

/-- Update accounts on a campaign that already reached `Fulfilled`. -/
def exUpdateAccountsNotOpen : UpdateCampaignAccounts :=
  { marketplace_state := exMarketplace, creator := [1],
    campaign := exCampaignFulfilled, token_mint := [7] }

/-- The campaign produced by the concrete witness update below. -/
def exUpdatedCampaign : Campaign :=
  { exCampaign with
      token_mint := [7], selected_kol := [4], promotion_ends_in := 300,
      offer_ends_in := 150, amount_offered := 2000 }

/-- A `Published` open campaign by `[1]` with pool 1000 and mint `[7]`. -/
def exOpenCampaign : OpenCampaign :=
  { id := [0, 0, 0, 0], counter := 5, created_at := 10,
    creator_address := [1], token_mint := [7], promotion_ends_in := 200,
    pool_amount := 1000, campaign_status := .Published }

/-- A custody token account holding 1000 units of mint `[7]`. -/
def exCustody : TokenAccount := { owner := [8], mint := [7], amount := 1000 }

/-- The registry owner's token account for mint `[7]`. -/
def exOwnerAcct : TokenAccount := { owner := [2], mint := [7], amount := 0 }

/-- Completion accounts with the registry owner `[2]` calling. -/
def exCompleteAccounts : CompleteOpenCampaignAccounts :=
  { marketplace_state := exMarketplace, owner := [2],
    open_campaign := exOpenCampaign, campaign_token_account := exCustody,
    owner_token_account := exOwnerAcct }

/-- A concrete stand-in for the external hash collaborator, used only to
evaluate witnesses. -/
def exHash : List Nat → List Nat := fun _ => List.replicate 32 9

/-- Creation accounts for a project campaign by creator `[1]`. -/
def exCreateAccounts : CreateNewCampaignAccounts :=
  { marketplace_state := exMarketplace, creator := [1], token_mint := [7] }

/-- Creation accounts for an open campaign by creator `[1]`. -/
def exCreateOpenAccounts : CreateOpenCampaignAccounts :=
  { marketplace_state := exMarketplace, creator := [1], token_mint := [7] }

/-- The campaign produced by the concrete witness creation below. -/
def exCreatedCampaign : Campaign :=
  { id := [9, 9, 9, 9], counter := 5, created_at := 10,
    creator_address := [1], token_mint := [7], selected_kol := [3],
    offer_ends_in := 100, promotion_ends_in := 200, amount_offered := 1000,
    campaign_status := .Open }

/-- The registry after the witness creation incremented the counter. -/
def exMarketplaceAfter : MarketplaceState :=
  { exMarketplace with campaign_counter := 6 }

/-- The selected promoter's token account for mint `[7]`. -/
def exKolAcct : TokenAccount := { owner := [3], mint := [7], amount := 0 }

/-- Fulfil accounts in which the signer `[9]` is NOT the registry owner
`[2]`; the campaign is `Accepted` and custody is fully funded. -/
def exFulfilAccountsStranger : FulfilProjectCampaignAccounts :=
  { marketplace_state := exMarketplace, owner := [9],
    campaign := exCampaignAccepted, campaign_token_account := exCustody,
    kol_token_account := exKolAcct, owner_token_account := exOwnerAcct,
    token_mint := [7] }

/-- The state after the stranger's fulfil call: 900 to the promoter,
100 to the registry owner, custody emptied, status `Fulfilled`. -/
def exFulfilResultStranger : FulfilResult :=
  { campaign := { exCampaignAccepted with campaign_status := .Fulfilled }
    campaign_token_account := { exCustody with amount := 0 }
    kol_token_account := { exKolAcct with amount := 900 }
    owner_token_account := { exOwnerAcct with amount := 100 } }

/-- An `Accepted` campaign whose stored `amount_offered` (500) is half
of what its custody account actually holds (1000). -/
def exCampaignAcceptedSmall : Campaign :=
  { exCampaign with amount_offered := 500, campaign_status := .Accepted }

/-- Fulfil accounts for `exCampaignAcceptedSmall`: custody holds 1000
units while `amount_offered` is 500. -/
def exFulfilAccountsMismatch : FulfilProjectCampaignAccounts :=
  { marketplace_state := exMarketplace, owner := [2],
    campaign := exCampaignAcceptedSmall,
    campaign_token_account := exCustody,
    kol_token_account := exKolAcct, owner_token_account := exOwnerAcct,
    token_mint := [7] }

/-- The state after fulfilling `exFulfilAccountsMismatch`: shares are
450/50 (from `amount_offered = 500`), not 900/100 (from the custody
balance 1000); 500 units stay in custody. -/
def exFulfilResultMismatch : FulfilResult :=
  { campaign := { exCampaignAcceptedSmall with campaign_status := .Fulfilled }
    campaign_token_account := { exCustody with amount := 500 }
    kol_token_account := { exKolAcct with amount := 450 }
    owner_token_account := { exOwnerAcct with amount := 50 } }

/-- Discard accounts: creator `[1]` discards the already-`Fulfilled`
`exCampaignFulfilled`, whose custody still holds 1 unit. -/
def exDiscardAccountsTerminal : DiscardProjectCampaignAccounts :=
  { marketplace_state := exMarketplace, creator := [1],
    campaign := exCampaignFulfilled,
    campaign_token_account := { owner := [8], mint := [7], amount := 1 },
    creator_token_account := { owner := [1], mint := [7], amount := 0 },
    token_mint := [7] }

/-- Campaign status after an `Except`-valued transition; a failed
transaction commits nothing, so the pre-status `s` is kept. -/
def statusAfterE (r : Except TxError Campaign) (s : CampaignStatus) :
    CampaignStatus :=
  match r with
  | .ok c => c.campaign_status
  | .error _ => s

/-- Campaign status after `fulfil_project_campaign` (whose aborts and
failures commit nothing). -/
def statusAfterFulfil (r : Option (Except TxError FulfilResult))
    (s : CampaignStatus) : CampaignStatus :=
  match r with
  | some (.ok f) => f.campaign.campaign_status
  | _ => s

/-- Campaign status after `discard_project_campaign`. -/
def statusAfterDiscard (r : Except TxError DiscardResult)
    (s : CampaignStatus) : CampaignStatus :=
  match r with
  | .ok d => d.campaign.campaign_status
  | .error _ => s

/-- One step along the documented forward state machine: stay put, or
`Open→Accepted`, `Open→Discarded`, `Accepted→Fulfilled`. -/
def forwardStep (s t : CampaignStatus) : Prop :=
  s = t ∨ (s = .Open ∧ t = .Accepted) ∨ (s = .Open ∧ t = .Discarded) ∨
    (s = .Accepted ∧ t = .Fulfilled)

-- ------------------ theorems ------------------

/-- `checked_add` succeeds exactly with the true sum. -/
theorem checkedAddU32_eq_of_some (a b c : Nat)
    (h : checkedAddU32 a b = some c) : c = a + b := by
  unfold checkedAddU32 at h
  split_ifs at h
  exact (Option.some_inj.mp h).symm

/-- The `kol_amount` computation, when it succeeds, is the truncating
multiply-then-divide. -/
theorem kolAmountOf_eq_of_some (t k : Nat) (h : kolAmountOf t = some k) :
    k = t * 9000 / 10000 := by
  unfold kolAmountOf checkedMulU64 checkedDivU64 at h
  split_ifs at h <;> simp_all [KOL_SHARE_PERCENTAGE, DIVIDER]

/-- The `owner_amount` computation, when it succeeds, is the truncating
multiply-then-divide. -/
theorem ownerAmountOf_eq_of_some (t o : Nat) (h : ownerAmountOf t = some o) :
    o = t * 1000 / 10000 := by
  unfold ownerAmountOf checkedMulU64 checkedDivU64 at h
  split_ifs at h <;> simp_all [OWNER_SHARE_PERCENTAGE, DIVIDER]

/-- C3: Fund Distribution computes `kol_amount = total * 9000 / 10000`
and `owner_amount = total * 1000 / 10000` by truncating integer
multiply-then-divide; whenever both checked computations succeed,
`kol_amount + owner_amount ≤ total` and the truncation remainder
`total - (kol_amount + owner_amount)` is below `DIVIDER = 10000`. -/
theorem C3_fund_distribution_split (total k o : Nat)
    (hk : kolAmountOf total = some k)
    (ho : ownerAmountOf total = some o) :
    k = total * 9000 / 10000 ∧ o = total * 1000 / 10000 ∧
    k + o ≤ total ∧ total - (k + o) < 10000 := by
  have hk1 := kolAmountOf_eq_of_some total k hk
  have ho1 := ownerAmountOf_eq_of_some total o ho
  subst hk1 ho1
  refine ⟨rfl, rfl, ?_, ?_⟩ <;> omega

/-- Witness for C3 at `total = 999999`. -/
theorem C3_fund_distribution_split_witness :
    899999 = 999999 * 9000 / 10000 ∧ 99999 = 999999 * 1000 / 10000 ∧
    899999 + 99999 ≤ 999999 ∧ 999999 - (899999 + 99999) < 10000 :=
  C3_fund_distribution_split 999999 899999 99999 (by decide) (by decide)

/-- C6: `accept_project_campaign`, called by the selected promoter on an
`Open` campaign, succeeds at `now = offer_ends_in`; it fails with
`CampaignExpired` at `now = offer_ends_in + 1` (this check runs first,
so it needs no further assumptions); within the time window it fails
with `Unauthorized` for a caller other than the selected promoter, and
with `InvalidCampaignStatus` for the selected promoter on a non-`Open`
campaign. -/
theorem C6_accept_campaign (kol : Pubkey) (c : Campaign) (now : Int) :
    (c.campaign_status = .Open → c.selected_kol = kol →
      now = c.offer_ends_in →
      accept_project_campaign kol c now =
        .ok { c with campaign_status := .Accepted }) ∧
    (now = c.offer_ends_in + 1 →
      accept_project_campaign kol c now = .error .CampaignExpired) ∧
    (now ≤ c.offer_ends_in → c.selected_kol ≠ kol →
      accept_project_campaign kol c now = .error .Unauthorized) ∧
    (now ≤ c.offer_ends_in → c.selected_kol = kol →
      c.campaign_status ≠ .Open →
      accept_project_campaign kol c now = .error .InvalidCampaignStatus) := by
  refine ⟨?_, ?_, ?_, ?_⟩
  · intro h1 h2 h3
    unfold accept_project_campaign
    rw [if_neg (by omega), if_neg (by simp [h2]), if_neg (by simp [h1])]
  · intro h
    unfold accept_project_campaign
    rw [if_pos (by omega)]
  · intro h1 h2
    unfold accept_project_campaign
    rw [if_neg (by omega), if_pos h2]
  · intro h1 h2 h3
    unfold accept_project_campaign
    rw [if_neg (by omega), if_neg (by simp [h2]), if_pos h3]

/-- Witness for C6: the four cases at the concrete campaign
`exCampaign` (`offer_ends_in = 100`, promoter `[3]`). -/
theorem C6_accept_campaign_witness :
    accept_project_campaign [3] exCampaign 100 =
      .ok { exCampaign with campaign_status := .Accepted } ∧
    accept_project_campaign [3] exCampaign 101 = .error .CampaignExpired ∧
    accept_project_campaign [9] exCampaign 100 = .error .Unauthorized ∧
    accept_project_campaign [3] exCampaignAccepted 100 =
      .error .InvalidCampaignStatus :=
  ⟨(C6_accept_campaign [3] exCampaign 100).1 (by decide) (by decide)
      (by decide),
   (C6_accept_campaign [3] exCampaign 101).2.1 (by decide),
   (C6_accept_campaign [9] exCampaign 100).2.2.1 (by decide) (by decide),
   (C6_accept_campaign [3] exCampaignAccepted 100).2.2.2 (by decide)
      (by decide) (by decide)⟩

/-- C8: `update_campaign` fails with `Unauthorized` whenever the caller
is not the campaign's creator (the account constraint carrying
`CustomErrorCode::Unauthorized` runs first, so this holds for any
status and any arguments); with the creator calling and a matching
mint, it fails with `InvalidKolAddress` for the null promoter identity,
and with `InvalidCampaignStatus` for a non-null promoter on a
non-`Open` campaign. -/
theorem C8_update_campaign (a : UpdateCampaignAccounts)
    (selected_kol : Pubkey) (promotion_ends_in offer_ends_in : Int)
    (new_amount_offered : Nat) :
    (a.campaign.creator_address ≠ a.creator →
      update_campaign a selected_kol promotion_ends_in offer_ends_in
        new_amount_offered = .error .Unauthorized) ∧
    (a.campaign.creator_address = a.creator →
      a.token_mint = a.campaign.token_mint →
      selected_kol ≠ pubkeyDefault →
      a.campaign.campaign_status ≠ .Open →
      update_campaign a selected_kol promotion_ends_in offer_ends_in
        new_amount_offered = .error .InvalidCampaignStatus) ∧
    (a.campaign.creator_address = a.creator →
      a.token_mint = a.campaign.token_mint →
      selected_kol = pubkeyDefault →
      update_campaign a selected_kol promotion_ends_in offer_ends_in
        new_amount_offered = .error .InvalidKolAddress) := by
  refine ⟨?_, ?_, ?_⟩
  · intro h1
    unfold update_campaign
    rw [if_pos h1]
  · intro h1 h2 h3 h4
    unfold update_campaign
    rw [if_neg (by simp [h1]), if_neg (by simp [h2]), if_neg h3, if_pos h4]
  · intro h1 h2 h3
    unfold update_campaign
    rw [if_neg (by simp [h1]), if_neg (by simp [h2]), if_pos h3]

/-- Witness for C8: the three failure cases at concrete accounts. -/
theorem C8_update_campaign_witness :
    update_campaign exUpdateAccountsWrongCaller [4] 300 150 2000 =
      .error .Unauthorized ∧
    update_campaign exUpdateAccountsNotOpen [4] 300 150 2000 =
      .error .InvalidCampaignStatus ∧
    update_campaign exUpdateAccounts pubkeyDefault 300 150 2000 =
      .error .InvalidKolAddress :=
  ⟨(C8_update_campaign exUpdateAccountsWrongCaller [4] 300 150 2000).1
      (by decide),
   (C8_update_campaign exUpdateAccountsNotOpen [4] 300 150 2000).2.1
      (by decide) (by decide) (by decide) (by decide),
   (C8_update_campaign exUpdateAccounts pubkeyDefault 300 150 2000).2.2
      (by decide) (by decide) rfl⟩

/-- C10: a successful `update_campaign` leaves `id`, `counter`,
`created_at`, `creator_address`, `campaign_status` and `token_mint`
unchanged; the mint constraint forces the supplied mint to equal the
stored one, so the denomination cannot actually change. -/
theorem C10_update_frame (a : UpdateCampaignAccounts)
    (selected_kol : Pubkey) (promotion_ends_in offer_ends_in : Int)
    (new_amount_offered : Nat) (c1 : Campaign)
    (h : update_campaign a selected_kol promotion_ends_in offer_ends_in
        new_amount_offered = .ok c1) :
    c1.id = a.campaign.id ∧ c1.counter = a.campaign.counter ∧
    c1.created_at = a.campaign.created_at ∧
    c1.creator_address = a.campaign.creator_address ∧
    c1.campaign_status = a.campaign.campaign_status ∧
    c1.token_mint = a.campaign.token_mint := by
  unfold update_campaign at h
  split_ifs at h with h1 h2 h3 h4
  injection h with h
  subst h
  exact ⟨rfl, rfl, rfl, rfl, rfl, not_ne_iff.mp h2⟩

/-- Witness for C10: a successful concrete update preserves the frame
fields. -/
theorem C10_update_frame_witness :
    exUpdatedCampaign.id = exCampaign.id ∧
    exUpdatedCampaign.counter = exCampaign.counter ∧
    exUpdatedCampaign.created_at = exCampaign.created_at ∧
    exUpdatedCampaign.creator_address = exCampaign.creator_address ∧
    exUpdatedCampaign.campaign_status = exCampaign.campaign_status ∧
    exUpdatedCampaign.token_mint = exCampaign.token_mint :=
  C10_update_frame exUpdateAccounts [4] 300 150 2000 exUpdatedCampaign
    (by decide)

/-- C5: with well-formed accounts, `complete_open_campaign` fails with
`Unauthorized` for every caller other than the registry owner, fails
with `InvalidOpenCampaignStatus` when the owner calls on a
non-`Published` campaign, and on success sets the status according to
`is_fulfilled` and moves the full `pool_amount` from custody to the
owner's token account in both branches. -/
theorem C5_complete_open_campaign (a : CompleteOpenCampaignAccounts)
    (is_fulfilled : Bool)
    (hc1 : a.campaign_token_account.mint ∈
      a.marketplace_state.allowed_tokens)
    (hc2 : a.owner_token_account.owner = a.marketplace_state.owner)
    (hc3 : a.owner_token_account.mint ∈
      a.marketplace_state.allowed_tokens) :
    (a.owner ≠ a.marketplace_state.owner →
      complete_open_campaign a is_fulfilled = .error .Unauthorized) ∧
    (a.owner = a.marketplace_state.owner →
      a.open_campaign.campaign_status ≠ .Published →
      complete_open_campaign a is_fulfilled =
        .error .InvalidOpenCampaignStatus) ∧
    (∀ r, complete_open_campaign a is_fulfilled = .ok r →
      r.open_campaign.campaign_status =
        (if is_fulfilled then .Fulfilled else .Discarded) ∧
      r.campaign_token_account.amount =
        a.campaign_token_account.amount - a.open_campaign.pool_amount ∧
      r.owner_token_account.amount =
        a.owner_token_account.amount + a.open_campaign.pool_amount) := by
  refine ⟨?_, ?_, ?_⟩
  · intro h1
    unfold complete_open_campaign
    rw [if_neg (not_not_intro hc1), if_neg (not_not_intro ⟨hc2, hc3⟩),
      if_pos (Ne.symm h1)]
  · intro h1 h2
    unfold complete_open_campaign
    rw [if_neg (not_not_intro hc1), if_neg (not_not_intro ⟨hc2, hc3⟩),
      if_neg (not_not_intro h1.symm), if_pos h2]
  · intro r h
    unfold complete_open_campaign at h
    rw [if_neg (not_not_intro hc1), if_neg (not_not_intro ⟨hc2, hc3⟩)] at h
    split_ifs at h with h1 h2 h3
    · simp only [] at h
      cases htr : transfer a.campaign_token_account a.owner_token_account
          a.open_campaign.pool_amount with
      | error e =>
          rw [htr] at h
          exact Except.noConfusion h
      | ok p =>
          rw [htr] at h
          injection h with h
          subst h
          unfold transfer at htr
          split_ifs at htr with h5
          injection htr with htr
          subst htr
          refine ⟨?_, rfl, rfl⟩
          rw [if_pos h3]
    · simp only [] at h
      cases htr : transfer a.campaign_token_account a.owner_token_account
          a.open_campaign.pool_amount with
      | error e =>
          rw [htr] at h
          exact Except.noConfusion h
      | ok p =>
          rw [htr] at h
          injection h with h
          subst h
          unfold transfer at htr
          split_ifs at htr with h5
          injection htr with htr
          subst htr
          refine ⟨?_, rfl, rfl⟩
          rw [if_neg h3]

/-- Witness for C5: the registry owner completes `exOpenCampaign` with
`is_fulfilled = false`; the pool still flows to the owner's account. -/
theorem C5_complete_open_campaign_witness :
    ({ exOpenCampaign with
        campaign_status := .Discarded } : OpenCampaign).campaign_status =
      (if false then OpenCampaignStatus.Fulfilled else .Discarded) ∧
    ({ exCustody with amount := 0 } : TokenAccount).amount =
      exCustody.amount - exOpenCampaign.pool_amount ∧
    ({ exOwnerAcct with amount := 1000 } : TokenAccount).amount =
      exOwnerAcct.amount + exOpenCampaign.pool_amount :=
  (C5_complete_open_campaign exCompleteAccounts false (by decide)
      (by decide) (by decide)).2.2
    { open_campaign := { exOpenCampaign with campaign_status := .Discarded }
      campaign_token_account := { exCustody with amount := 0 }
      owner_token_account := { exOwnerAcct with amount := 1000 } }
    (by decide)

/-- C7: a successful `create_new_campaign` creates the campaign with
status `Open` and `counter` equal to the registry counter before the
call, and increments the registry counter by exactly 1; with an allowed
mint it fails with `InvalidAmount` on a zero offering amount, and (for
a nonzero amount) with `InvalidTimeParameters` when `offer_ends_in` or
`promotion_ends_in` is not in the future. -/
theorem C7_create_new_campaign (H : List Nat → List Nat)
    (a : CreateNewCampaignAccounts) (selected_kol : Pubkey)
    (offering_amount : Nat) (promotion_ends_in offer_ends_in now : Int) :
    (∀ c ms1, create_new_campaign H a selected_kol offering_amount
        promotion_ends_in offer_ends_in now = some (.ok (c, ms1)) →
      c.campaign_status = .Open ∧
      c.counter = a.marketplace_state.campaign_counter ∧
      ms1.campaign_counter = a.marketplace_state.campaign_counter + 1) ∧
    (a.token_mint ∈ a.marketplace_state.allowed_tokens →
      offering_amount = 0 →
      create_new_campaign H a selected_kol offering_amount
        promotion_ends_in offer_ends_in now =
        some (.error .InvalidAmount)) ∧
    (a.token_mint ∈ a.marketplace_state.allowed_tokens →
      offering_amount ≠ 0 →
      (offer_ends_in ≤ now ∨ promotion_ends_in ≤ now) →
      create_new_campaign H a selected_kol offering_amount
        promotion_ends_in offer_ends_in now =
        some (.error .InvalidTimeParameters)) := by
  refine ⟨?_, ?_, ?_⟩
  · intro c ms1 h
    unfold create_new_campaign at h
    split_ifs at h with h1 h2 h3
    all_goals try exact Except.noConfusion (Option.some_inj.mp h)
    simp only [] at h
    cases hadd : checkedAddU32 a.marketplace_state.campaign_counter 1 with
    | none =>
        rw [hadd] at h
        exact Option.noConfusion h
    | some newCounter =>
        rw [hadd] at h
        injection h with h
        injection h with h
        injection h with h4 h5
        subst h4
        subst h5
        exact ⟨rfl, rfl, checkedAddU32_eq_of_some _ _ _ hadd⟩
  · intro h1 h2
    unfold create_new_campaign
    rw [if_neg (not_not_intro h1), if_pos h2]
  · intro h1 h2 h3
    unfold create_new_campaign
    rw [if_neg (not_not_intro h1), if_neg h2, if_pos h3]

/-- Witness for C7: concrete creation, zero-amount failure, and
past-deadline failure. -/
theorem C7_create_new_campaign_witness :
    (exCreatedCampaign.campaign_status = .Open ∧
     exCreatedCampaign.counter = exMarketplace.campaign_counter ∧
     exMarketplaceAfter.campaign_counter =
       exMarketplace.campaign_counter + 1) ∧
    create_new_campaign exHash exCreateAccounts [3] 0 200 100 10 =
      some (.error .InvalidAmount) ∧
    create_new_campaign exHash exCreateAccounts [3] 1000 200 5 10 =
      some (.error .InvalidTimeParameters) :=
  ⟨(C7_create_new_campaign exHash exCreateAccounts [3] 1000 200 100 10).1
      exCreatedCampaign exMarketplaceAfter (by decide),
   (C7_create_new_campaign exHash exCreateAccounts [3] 0 200 100 10).2.1
      (by decide) rfl,
   (C7_create_new_campaign exHash exCreateAccounts [3] 1000 200 5 10).2.2
      (by decide) (by decide) (by decide)⟩

/-- C9: both creation instructions compute the 4-byte id as the first
4 bytes of the hash of little-endian timestamp bytes, then creator
bytes, then little-endian counter bytes — i.e. both refine the
spec-side `derive_campaign_id`, so the id is a deterministic function
of `(timestamp, creator, counter)` for a fixed hash function. -/
theorem C9_campaign_id_derivation (H : List Nat → List Nat)
    (a : CreateNewCampaignAccounts) (b : CreateOpenCampaignAccounts)
    (selected_kol : Pubkey) (offering_amount : Nat)
    (promotion_ends_in offer_ends_in : Int) (pool_amount : Nat)
    (promotion_ends_in2 t1 t2 : Int) :
    (∀ c ms1, create_new_campaign H a selected_kol offering_amount
        promotion_ends_in offer_ends_in t1 = some (.ok (c, ms1)) →
      c.id = derive_campaign_id H t1 a.creator
        a.marketplace_state.campaign_counter) ∧
    (∀ oc ms2, create_open_campaign H b promotion_ends_in2 pool_amount
        t2 = some (.ok (oc, ms2)) →
      oc.id = derive_campaign_id H t2 b.creator
        b.marketplace_state.campaign_counter) := by
  constructor
  · intro c ms1 h
    unfold create_new_campaign at h
    split_ifs at h with h1 h2 h3
    all_goals try exact Except.noConfusion (Option.some_inj.mp h)
    simp only [] at h
    cases hadd : checkedAddU32 a.marketplace_state.campaign_counter 1 with
    | none =>
        rw [hadd] at h
        exact Option.noConfusion h
    | some newCounter =>
        rw [hadd] at h
        injection h with h
        injection h with h
        injection h with h4 h5
        subst h4
        rfl
  · intro oc ms2 h
    unfold create_open_campaign at h
    split_ifs at h with h1 h2 h3
    all_goals try exact Except.noConfusion (Option.some_inj.mp h)
    simp only [] at h
    cases hadd : checkedAddU32 b.marketplace_state.campaign_counter 1 with
    | none =>
        rw [hadd] at h
        exact Option.noConfusion h
    | some newCounter =>
        rw [hadd] at h
        injection h with h
        injection h with h
        injection h with h4 h5
        subst h4
        rfl

/-- Witness for C9: both creations at equal `(timestamp, creator,
counter)` inputs yield the id `derive_campaign_id` prescribes. -/
theorem C9_campaign_id_derivation_witness :
    exCreatedCampaign.id = derive_campaign_id exHash 10 [1] 5 ∧
    ([9, 9, 9, 9] : List Nat) = derive_campaign_id exHash 10 [1] 5 :=
  ⟨(C9_campaign_id_derivation exHash exCreateAccounts exCreateOpenAccounts
      [3] 1000 200 100 1000 200 10 10).1 exCreatedCampaign
      exMarketplaceAfter (by decide),
   (C9_campaign_id_derivation exHash exCreateAccounts exCreateOpenAccounts
      [3] 1000 200 100 1000 200 10 10).2
      { id := [9, 9, 9, 9], counter := 5, created_at := 10,
        creator_address := [1], token_mint := [7],
        promotion_ends_in := 200, pool_amount := 1000,
        campaign_status := .Published }
      exMarketplaceAfter (by decide)⟩

/-- C1 is refuted by the code: `fulfil_project_campaign` never inspects
the transaction signer, so its outcome is identical for every caller
(first conjunct), and concretely a stranger `[9]` distinct from the
registry owner `[2]` successfully fulfils an `Accepted` campaign,
changing its status to `Fulfilled` instead of failing with
`Unauthorized` and leaving the state unchanged. -/
theorem C1_fulfil_ignores_caller :
    (∀ (a : FulfilProjectCampaignAccounts) (k : Pubkey),
      fulfil_project_campaign { a with owner := k } =
        fulfil_project_campaign a) ∧
    exFulfilAccountsStranger.owner ≠
      exFulfilAccountsStranger.marketplace_state.owner ∧
    fulfil_project_campaign exFulfilAccountsStranger =
      some (.ok exFulfilResultStranger) ∧
    exFulfilResultStranger.campaign.campaign_status = .Fulfilled :=
  ⟨fun _ _ => rfl, by decide, by decide, by decide⟩

/-- C2 as stated is false: `discard_project_campaign` checks no status
precondition, so the creator can discard the terminal `Fulfilled`
campaign `exCampaignFulfilled` (whose custody still holds 1 unit of
truncation dust), moving its status to `Discarded`. -/
theorem C2_discard_moves_terminal_status :
    exDiscardAccountsTerminal.campaign.campaign_status = .Fulfilled ∧
    discard_project_campaign exDiscardAccountsTerminal =
      .ok { campaign :=
              { exCampaignFulfilled with campaign_status := .Discarded }
            campaign_token_account :=
              { owner := [8], mint := [7], amount := 0 }
            creator_token_account :=
              { owner := [1], mint := [7], amount := 1 } } ∧
    CampaignStatus.Discarded ≠ CampaignStatus.Fulfilled := by
  refine ⟨by decide, by decide, by decide⟩

/-- C2 amended: `update_campaign`, `accept_project_campaign` and
`fulfil_project_campaign` move the status only forward along
`Open→Accepted→Fulfilled` (in particular they never change a terminal
status), but `discard_project_campaign` only guarantees that the status
is either unchanged or `Discarded`: with a positive custody balance it
sets `Discarded` regardless of the previous status, including the
terminal `Fulfilled`. -/
theorem C2_transition_monotonicity
    (ua : UpdateCampaignAccounts) (uk : Pubkey) (up uo : Int) (un : Nat)
    (ak : Pubkey) (ac : Campaign) (tm : Int)
    (fa : FulfilProjectCampaignAccounts)
    (da : DiscardProjectCampaignAccounts) :
    forwardStep ua.campaign.campaign_status
      (statusAfterE (update_campaign ua uk up uo un)
        ua.campaign.campaign_status) ∧
    forwardStep ac.campaign_status
      (statusAfterE (accept_project_campaign ak ac tm)
        ac.campaign_status) ∧
    forwardStep fa.campaign.campaign_status
      (statusAfterFulfil (fulfil_project_campaign fa)
        fa.campaign.campaign_status) ∧
    (statusAfterDiscard (discard_project_campaign da)
        da.campaign.campaign_status = da.campaign.campaign_status ∨
      statusAfterDiscard (discard_project_campaign da)
        da.campaign.campaign_status = .Discarded) := by
  refine ⟨?_, ?_, ?_, ?_⟩
  · unfold update_campaign
    split_ifs <;> exact Or.inl rfl
  · unfold accept_project_campaign
    split_ifs with h1 h2 h3
    all_goals try exact Or.inl rfl
    exact Or.inr (Or.inl ⟨not_ne_iff.mp h3, rfl⟩)
  · unfold fulfil_project_campaign
    split_ifs with h1 h2 h3 h4 h5
    all_goals try exact Or.inl rfl
    simp only []
    split
    · split
      · exact Or.inl rfl
      · split
        · exact Or.inl rfl
        · exact Or.inr (Or.inr (Or.inr ⟨not_ne_iff.mp h5, rfl⟩))
    · exact Or.inl rfl
  · unfold discard_project_campaign
    split_ifs with h1 h2 h3 h4
    all_goals try exact Or.inl rfl
    simp only []
    split_ifs with hbal
    · split
      · exact Or.inl rfl
      · exact Or.inr rfl
    · exact Or.inl rfl

/-- C4 as stated is false: `fulfil_project_campaign` computes the
shares from the stored `amount_offered`, not from the custody balance.
Concretely, with custody holding 1000 units but `amount_offered = 500`,
the call succeeds and pays the promoter 450 — not
`1000 * 9000 / 10000 = 900` as a split of the custody balance would
require. -/
theorem C4_fulfil_not_custody_balance :
    exFulfilAccountsMismatch.campaign_token_account.amount = 1000 ∧
    fulfil_project_campaign exFulfilAccountsMismatch =
      some (.ok exFulfilResultMismatch) ∧
    exFulfilResultMismatch.kol_token_account.amount =
      exKolAcct.amount + 450 ∧
    (450 : Nat) ≠ 1000 * 9000 / 10000 := by
  refine ⟨by decide, by decide, by decide, by decide⟩

/-- C4 amended: a successful `fulfil_project_campaign` sets the status
to `Fulfilled` and distributes shares computed from the campaign's
stored `amount_offered` at transition time — the promoter receives
`amount_offered * 9000 / 10000`, the registry owner
`amount_offered * 1000 / 10000`, and custody is debited by their sum;
these coincide with a split of the custody balance only when the
custody balance equals `amount_offered`. -/
theorem C4_fulfil_uses_amount_offered
    (a : FulfilProjectCampaignAccounts) (r : FulfilResult)
    (h : fulfil_project_campaign a = some (.ok r)) :
    r.campaign.campaign_status = .Fulfilled ∧
    r.kol_token_account.amount = a.kol_token_account.amount +
      a.campaign.amount_offered * 9000 / 10000 ∧
    r.owner_token_account.amount = a.owner_token_account.amount +
      a.campaign.amount_offered * 1000 / 10000 ∧
    r.campaign_token_account.amount = a.campaign_token_account.amount -
      a.campaign.amount_offered * 9000 / 10000 -
      a.campaign.amount_offered * 1000 / 10000 := by
  unfold fulfil_project_campaign at h
  split_ifs at h with h1 h2 h3 h4 h5
  all_goals try exact Except.noConfusion (Option.some_inj.mp h)
  simp only [] at h
  split at h
  · rename_i k o hk ho
    split at h
    · exact Except.noConfusion (Option.some_inj.mp h)
    · rename_i c1 k1 htr1
      split at h
      · exact Except.noConfusion (Option.some_inj.mp h)
      · rename_i c2 o1 htr2
        injection h with h
        injection h with h
        subst h
        have hkk := kolAmountOf_eq_of_some _ _ hk
        have hoo := ownerAmountOf_eq_of_some _ _ ho
        subst hkk
        subst hoo
        unfold transfer at htr1
        split_ifs at htr1 with hb1
        injection htr1 with htr1
        injection htr1 with e1 e2
        subst e1
        subst e2
        unfold transfer at htr2
        split_ifs at htr2 with hb2
        injection htr2 with htr2
        injection htr2 with f1 f2
        subst f1
        subst f2
        exact ⟨rfl, rfl, rfl, rfl⟩
  · exact Option.noConfusion h

/-- Witness for the amended C4 at `exFulfilAccountsMismatch`. -/
theorem C4_fulfil_uses_amount_offered_witness :
    exFulfilResultMismatch.campaign.campaign_status = .Fulfilled ∧
    exFulfilResultMismatch.kol_token_account.amount =
      exFulfilAccountsMismatch.kol_token_account.amount +
        exFulfilAccountsMismatch.campaign.amount_offered * 9000 / 10000 ∧
    exFulfilResultMismatch.owner_token_account.amount =
      exFulfilAccountsMismatch.owner_token_account.amount +
        exFulfilAccountsMismatch.campaign.amount_offered * 1000 / 10000 ∧
    exFulfilResultMismatch.campaign_token_account.amount =
      exFulfilAccountsMismatch.campaign_token_account.amount -
        exFulfilAccountsMismatch.campaign.amount_offered * 9000 / 10000 -
        exFulfilAccountsMismatch.campaign.amount_offered * 1000 / 10000 :=
  C4_fulfil_uses_amount_offered exFulfilAccountsMismatch
    exFulfilResultMismatch (by decide)

end SolCb
